import Mathlib

/-!
Verification development for the twitter_radar_system campaign engine.

The definitions below are a shallow embedding of the Python sources under
`backend/`: the Post Filter (`modules/campaign/post_filter.py`), the
Interaction Mapper (`modules/campaign/interaction_mapper.py`), the Auto
Replier (`modules/campaign/auto_replier.py`), the Campaign Manager
(`modules/campaign/campaign_manager.py`) and the Rate Limiter
(`modules/scheduler/rate_limiter.py`).  External collaborators (the Twitter
client facade, the LLM services and MongoDB) are modelled as explicit data:
fetches become supplied functions, AI calls become `Except`-valued oracles,
and the Mongo collections become Lean lists threaded through the state.
Timestamps are integers (seconds); Python `datetime` values only ever flow
through comparisons and subtraction here.
-/

/-! ## Small string helpers mirroring Python primitives -/

/-- Python `str.strip(c)` for a single character: removes every occurrence of
`c` from both ends of the string. -/
def pyStripChar (c : Char) (s : String) : String :=
  String.mk (((s.toList.dropWhile (· == c)).reverse.dropWhile (· == c)).reverse)

/-- Python `str.strip()`: removes whitespace from both ends. -/
def pyStripWs (s : String) : String :=
  String.mk (((s.toList.dropWhile Char.isWhitespace).reverse.dropWhile Char.isWhitespace).reverse)

/-- Substring test on character lists: `containsSub n h` is true when the
list `n` occurs contiguously inside `h` (Python `n in h`). -/
def containsSub (n : List Char) : List Char → Bool
  | [] => n.isEmpty
  | c :: t => n.isPrefixOf (c :: t) || containsSub n t

/-- Python `needle in hay` on strings. -/
def strContains (hay needle : String) : Bool :=
  containsSub needle.toList hay.toList

/-- ASCII lowering of a character (the texts and keywords handled here are
ASCII, where Python `str.lower` acts exactly like this). -/
def pyLowerChar (c : Char) : Char :=
  if 'A' ≤ c && c ≤ 'Z' then Char.ofNat (c.toNat + 32) else c

/-- Python `str.lower` on ASCII text. -/
def pyLower (s : String) : String := String.mk (s.toList.map pyLowerChar)

/-- Hexadecimal digit test, as accepted by `bson.ObjectId`. -/
def isHexChar (c : Char) : Bool :=
  c.isDigit || ('a' ≤ c && c ≤ 'f') || ('A' ≤ c && c ≤ 'F')

/-- A well-formed `bson.ObjectId` string: exactly 24 hex characters. -/
def validObjectId (s : String) : Bool :=
  s.length == 24 && s.toList.all isHexChar

/-- `bson.ObjectId(s)`: returns the id or raises `InvalidId` for malformed
input; the exception is modelled as the `Except.error` branch. -/
def objectId (s : String) : Except String String :=
  if validObjectId s then .ok s else .error ("Invalid ObjectId: " ++ s)

/-! ## Post Filter (`modules/campaign/post_filter.py`) -/

/-- A tweet as returned by `TwitterAdapter.get_user_tweets`. -/
structure Tweet where
  tweet_id : String
  text : String
  created_at : Int := 0
  likes : Nat := 0
  retweets : Nat := 0
  url : String := ""
deriving DecidableEq

/-- The record built for each keyword match inside
`PostFilter.find_matching_posts` (before persistence adds the campaign
reference and `reply_status`).  `grok_approved`/`grok_reason` are the keys
added by `_parse_grok_analysis` when the AI gate accepts a post. -/
structure MatchedRec where
  tweet_id : String
  username : String
  text : String
  created_at : Int
  likes : Nat
  retweets : Nat
  url : String
  matched_keywords : List String
  grok_approved : Option Bool := none
  grok_reason : Option String := none
deriving DecidableEq

/-- `PostFilter._matches_keywords`: case-insensitive any-keyword substring
test. -/
def matches_keywords (text : String) (keywords : List String) : Bool :=
  keywords.any (fun kw => strContains (pyLower text) (pyLower kw))

/-- `PostFilter._get_matched_keywords`: the keywords that occur
case-insensitively in the text, in keyword-list order. -/
def get_matched_keywords (text : String) (keywords : List String) : List String :=
  keywords.filter (fun kw => strContains (pyLower text) (pyLower kw))

/-- The per-match record construction in `find_matching_posts`. -/
def mkMatchedRec (username : String) (keywords : List String) (t : Tweet) : MatchedRec :=
  { tweet_id := t.tweet_id, username := username, text := t.text,
    created_at := t.created_at, likes := t.likes, retweets := t.retweets,
    url := t.url, matched_keywords := get_matched_keywords t.text keywords }

/-- The inner per-user loop of `find_matching_posts`: walk the fetched tweets
in order, keep each keyword match, and break once `len(user_matches) >=
max_posts_per_user` — the check happens after the append, exactly as in the
source.  `cnt` is `len(user_matches)` so far. -/
def collectUserMatches (username : String) (keywords : List String)
    (max_posts_per_user : Nat) (cnt : Nat) : List Tweet → List MatchedRec
  | [] => []
  | t :: ts =>
    if matches_keywords t.text keywords then
      if max_posts_per_user ≤ cnt + 1 then [mkMatchedRec username keywords t]
      else mkMatchedRec username keywords t ::
        collectUserMatches username keywords max_posts_per_user (cnt + 1) ts
    else collectUserMatches username keywords max_posts_per_user cnt ts

/-- The pre-gate candidate list: the keyword-matching stage of
`find_matching_posts`, concatenating each username's matches in order.
`fetch u count lookback` stands for `twitter.get_user_tweets(u, count,
lookback_days)`. -/
def keyword_candidates (fetch : String → Nat → Nat → List Tweet)
    (usernames : List String) (keywords : List String)
    (lookback_days : Nat) (max_posts_per_user : Nat) : List MatchedRec :=
  usernames.foldl
    (fun acc u => acc ++ collectUserMatches u keywords max_posts_per_user 0 (fetch u 50 lookback_days))
    []

/-- Result of `TwitterAdapter.analyze_tweets_with_grok`. -/
structure GrokResult where
  success : Bool
  analysis : String

/-- Campaign context handed to the Grok gate (only used to build the prompt;
its presence is what the `if ... and campaign_context` check tests). -/
structure GrokContext where
  name : String := ""
  keywords : List String := []
  reply_template : String := ""
  target_url : String := ""

/-- One attempted application of the regex
`tweet_id=([^;]+);suitable=([^;]+)(?:;reason=([^\n]+))?` at the head of the
character list.  The character classes exclude the delimiter that follows
them, so the greedy match is deterministic and needs no backtracking; the
third group is optional, yielding `""` when absent (as `re.findall` does for
a non-participating group).  Returns the three groups and the number of
characters consumed. -/
def tryGrokLine (cs : List Char) : Option ((String × String × String) × Nat) :=
  if ("tweet_id=".toList).isPrefixOf cs then
    let r1 := cs.drop 9
    let g1 := r1.takeWhile (fun c => c ≠ ';')
    if g1.isEmpty then none else
    let r2 := r1.drop g1.length
    if (";suitable=".toList).isPrefixOf r2 then
      let r3 := r2.drop 10
      let g2 := r3.takeWhile (fun c => c ≠ ';')
      if g2.isEmpty then none else
      let r4 := r3.drop g2.length
      if (";reason=".toList).isPrefixOf r4 then
        let g3 := (r4.drop 8).takeWhile (fun c => c ≠ '\n')
        if g3.isEmpty then
          some ((g1.asString, g2.asString, ""), 9 + g1.length + 10 + g2.length)
        else
          some ((g1.asString, g2.asString, g3.asString),
                9 + g1.length + 10 + g2.length + 8 + g3.length)
      else
        some ((g1.asString, g2.asString, ""), 9 + g1.length + 10 + g2.length)
    else none
  else none

/-- `re.findall` of the Grok-line pattern: scan left to right, emitting each
match and resuming after it (a failed position advances by one character).
The fuel is the remaining text length; every step consumes at least one
character, so `grokScan` below always supplies enough. -/
def grokScanAux : Nat → List Char → List (String × String × String)
  | 0, _ => []
  | _, [] => []
  | fuel + 1, c :: rest =>
    match tryGrokLine (c :: rest) with
    | some (m, k) => m :: grokScanAux fuel (List.drop (k - 1) rest)
    | none => grokScanAux fuel rest

/-- All pattern matches in the analysis text, in order. -/
def grokScan (s : String) : List (String × String × String) :=
  grokScanAux s.toList.length s.toList

/-- `PostFilter._parse_grok_analysis`: keep, in match order, each original
post whose id appears in a `suitable=yes` line, tagging it with the parsed
reason. -/
def parse_grok_analysis (analysis : String) (original : List MatchedRec) : List MatchedRec :=
  (grokScan analysis).foldl
    (fun acc m =>
      let tid := pyStripWs m.1
      let suit := pyLower (pyStripWs m.2.1) == "yes"
      let reason := pyStripWs m.2.2
      if suit then
        match original.find? (fun p => p.tweet_id == tid) with
        | some p => acc ++ [{ p with grok_approved := some true, grok_reason := some reason }]
        | none => acc
      else acc)
    []

/-- `PostFilter._filter_with_grok`: the AI call is an oracle that either
raises (`Except.error`, caught by the source's `except` which returns the
posts unchanged) or returns a `GrokResult`; an unsuccessful result also
returns the posts unchanged, and a successful one is parsed. -/
def filter_with_grok (posts : List MatchedRec) (call : Except String GrokResult) :
    List MatchedRec :=
  if posts.isEmpty then []
  else
    match call with
    | .error _ => posts
    | .ok r => if r.success then parse_grok_analysis r.analysis posts else posts

/-- `PostFilter.find_matching_posts`: keyword stage, then the optional Grok
gate when enabled, candidates exist and a campaign context was given. -/
def find_matching_posts (fetch : String → Nat → Nat → List Tweet)
    (usernames : List String) (keywords : List String)
    (lookback_days : Nat) (max_posts_per_user : Nat)
    (use_grok_filter : Bool) (ctx : Option GrokContext)
    (call : Except String GrokResult) : List MatchedRec :=
  let pre := keyword_candidates fetch usernames keywords lookback_days max_posts_per_user
  if use_grok_filter && !pre.isEmpty && ctx.isSome then filter_with_grok pre call else pre

/-! ## Interaction Mapper (`modules/campaign/interaction_mapper.py`) -/

/-- Result of `TwitterAdapter.get_tweet_interactions`. -/
structure Interactions where
  likers : List String := []
  retweeters : List String := []

/-- Add `pts` to `u`'s score in an insertion-ordered association list — the
behaviour of `defaultdict(int)` under `scores[u] += pts`: an existing key
keeps its position, a new key is appended. -/
def bump (scores : List (String × Nat)) (u : String) (pts : Nat) : List (String × Nat) :=
  match scores with
  | [] => [(u, pts)]
  | p :: rest => if p.fst == u then (p.fst, p.snd + pts) :: rest else p :: bump rest u pts

/-- Score every user in the list with the given weight, in list order. -/
def bumpAll (scores : List (String × Nat)) (users : List String) (pts : Nat) :
    List (String × Nat) :=
  users.foldl (fun sc u => bump sc u pts) scores

/-- Per-tweet scoring: +1 per liker, then +2 per retweeter. -/
def scoreTweet (itx : String → Interactions) (sc : List (String × Nat)) (tid : String) :
    List (String × Nat) :=
  bumpAll (bumpAll sc (itx tid).likers 1) (itx tid).retweeters 2

/-- Per-seed scoring over the (at most 20, lookback-bounded) fetched tweets. -/
def scoreSeed (fetch : String → Nat → Nat → List Tweet) (itx : String → Interactions)
    (lookback_days : Nat) (sc : List (String × Nat)) (seed : String) :
    List (String × Nat) :=
  (fetch seed 20 lookback_days).foldl (fun s t => scoreTweet itx s t.tweet_id) sc

/-- The full `interaction_scores` accumulation across all seed users. -/
def interactionScores (fetch : String → Nat → Nat → List Tweet)
    (itx : String → Interactions) (lookback_days : Nat) (seeds : List String) :
    List (String × Nat) :=
  seeds.foldl (scoreSeed fetch itx lookback_days) []

/-- The seed-removal loop: `interaction_scores.pop(seed.strip('@'), None)` for
each seed; `str.strip('@')` removes every `'@'` from both ends. -/
def removeSeedScores (seeds : List String) (sc : List (String × Nat)) :
    List (String × Nat) :=
  seeds.foldl (fun s seed => s.filter (fun p => p.fst != pyStripChar '@' seed)) sc

/-- Stable descending insertion: an incoming element goes after every earlier
element with a strictly greater score and before ties, so earlier elements
keep priority on equal scores. -/
def insertDesc (x : String × Nat) : List (String × Nat) → List (String × Nat)
  | [] => [x]
  | y :: ys => if x.snd < y.snd then y :: insertDesc x ys else x :: y :: ys

/-- Stable sort by score descending — extensionally the behaviour of Python's
`sorted(key=lambda x: x[1], reverse=True)`, which is a stable sort. -/
def sortDesc : List (String × Nat) → List (String × Nat)
  | [] => []
  | x :: xs => insertDesc x (sortDesc xs)

/-- One entry of the formatted result list. -/
structure ScoreEntry where
  username : String
  interaction_score : Nat
  last_interaction : Int
deriving DecidableEq

/-- The result formatting at the end of `find_top_interacted_users`
(`last_interaction` is `datetime.now()`, passed in as `now`). -/
def fmtEntry (now : Int) (p : String × Nat) : ScoreEntry :=
  { username := p.fst, interaction_score := p.snd, last_interaction := now }

/-- `InteractionMapper.find_top_interacted_users`: accumulate scores over all
seeds' tweets, drop the seed users themselves, sort by score descending
(stable) and keep the first `top_n`. -/
def find_top_interacted_users (fetch : String → Nat → Nat → List Tweet)
    (itx : String → Interactions) (seeds : List String) (top_n : Nat)
    (lookback_days : Nat) (now : Int) : List ScoreEntry :=
  let cleaned := removeSeedScores seeds (interactionScores fetch itx lookback_days seeds)
  ((sortDesc cleaned).take top_n).map (fmtEntry now)

/-- Modelled from the spec's own words for comparison in claim C5: the spec
normalizes a seed "by stripping a leading `'@'`", i.e. it removes one at-sign
at the front only. -/
def stripLeadingAt (s : String) : String :=
  match s.toList with
  | '@' :: rest => String.mk rest
  | _ => s

/-! ## Campaign data model and state store (`modules/campaign/campaign_manager.py`) -/

/-- A campaign document as persisted by `CampaignManager.create_campaign`.
`max_replies_per_day` models the raw document key of that name, which
`RateLimiter.can_post_reply` reads with `campaign.get("max_replies_per_day",
50)`; `create_campaign` never writes it, so freshly created campaigns carry
`none` there while the configured cap lives in `daily_reply_limit`. -/
structure Campaign where
  name : String
  status : String
  seed_users : List String
  top_n_users : Nat
  lookback_days : Nat
  keywords : List String
  reply_template : String
  target_url : String
  short_url : String
  ai_provider : String
  reply_model : String
  use_grok_filter : Bool
  daily_reply_limit : Nat
  dry_run : Bool
  total_replies : Nat
  total_clicks : Nat
  created_at : Int
  updated_at : Int
  max_replies_per_day : Option Nat := none
deriving DecidableEq

/-- The `campaign_data` dictionary accepted by `create_campaign`: required
keys are plain fields, keys read with `.get(key, default)` are options. -/
structure CampaignData where
  name : String
  seed_users : List String
  top_n_users : Option Nat := none
  lookback_days : Option Nat := none
  keywords : List String
  reply_template : String
  target_url : String
  short_url : String
  ai_provider : Option String := none
  reply_model : Option String := none
  use_grok_filter : Option Bool := none
  daily_reply_limit : Option Nat := none
  dry_run : Option Bool := none

/-- `CampaignManager.create_campaign`: the campaign document it inserts
(`now` is `datetime.now()`).  Status starts at `"draft"`, counters at zero,
and the daily cap is stored under `daily_reply_limit`. -/
def create_campaign (d : CampaignData) (now : Int) : Campaign :=
  { name := d.name, status := "draft", seed_users := d.seed_users,
    top_n_users := d.top_n_users.getD 50, lookback_days := d.lookback_days.getD 7,
    keywords := d.keywords, reply_template := d.reply_template,
    target_url := d.target_url, short_url := d.short_url,
    ai_provider := d.ai_provider.getD "openai", reply_model := d.reply_model.getD "gpt-4",
    use_grok_filter := d.use_grok_filter.getD false,
    daily_reply_limit := d.daily_reply_limit.getD 50, dry_run := d.dry_run.getD false,
    total_replies := 0, total_clicks := 0, created_at := now, updated_at := now,
    max_replies_per_day := none }

/-- A persisted `matched_posts` document (fields used by the reply step). -/
structure MatchedPost where
  id : Nat
  campaign_id : String
  tweet_id : String
  username : String
  text : String
  reply_status : String
  found_at : Int := 0
deriving DecidableEq

/-- A persisted `campaign_replies` document, exactly the `reply_doc` shape
written by `process_pending_reply`. -/
structure CampaignReply where
  campaign_id : String
  target_user : String
  target_tweet_id : String
  target_tweet_text : String
  reply_text : Option String
  reply_tweet_id : Option String
  short_url : String
  status : String
  error_message : Option String
  dry_run : Bool
  likes : Nat := 0
  retweets : Nat := 0
  replies : Nat := 0
  posted_at : Option Int
  created_at : Int
deriving DecidableEq

/-- The Mongo collections the campaign engine touches, in insertion order. -/
structure Store where
  campaigns : List (String × Campaign)
  matched_posts : List MatchedPost
  campaign_replies : List CampaignReply
deriving DecidableEq

/-- `db.campaigns.find_one({"_id": ObjectId(cid)})`. -/
def lookupCampaign (st : Store) (cid : String) : Option Campaign :=
  (st.campaigns.find? (fun p => p.fst == cid)).map (fun p => p.snd)

/-- Result value of the start/stop endpoints. -/
structure OpResult where
  success : Bool
  error : Option String := none
deriving DecidableEq

/-- `db.campaigns.update_one({_id: cid}, {$set: ...})` applied to the list:
only the matching campaign is rewritten. -/
def updateCampaign (st : Store) (cid : String) (f : Campaign → Campaign) : Store :=
  { st with campaigns := st.campaigns.map (fun p => if p.fst == cid then (p.fst, f p.snd) else p) }

/-- `CampaignManager.start_campaign`: reject when the Twitter client has no
authenticated session; otherwise unconditionally set the status to
`"active"` (there is no check of the current status).  The background
`analyze_campaign` kick-off never touches the status field and is not
modelled here.  A malformed id makes `ObjectId` raise inside the `try`,
caught into an error result. -/
def start_campaign (st : Store) (is_authenticated : Bool) (cid : String) (now : Int) :
    OpResult × Store :=
  if !is_authenticated then
    ({ success := false,
       error := some "Twitter account not configured. Please add your Twitter cookies in Settings." }, st)
  else
    match objectId cid with
    | .error e => ({ success := false, error := some e }, st)
    | .ok oid =>
      ({ success := true }, updateCampaign st oid (fun c => { c with status := "active", updated_at := now }))

/-- `CampaignManager.stop_campaign`: unconditionally set the status to
`"paused"` (again with no check of the current status). -/
def stop_campaign (st : Store) (cid : String) (now : Int) : OpResult × Store :=
  match objectId cid with
  | .error e => ({ success := false, error := some e }, st)
  | .ok oid =>
    ({ success := true }, updateCampaign st oid (fun c => { c with status := "paused", updated_at := now }))

/-! ## Auto Replier (`modules/campaign/auto_replier.py`) -/

/-- Result dictionary of `TwitterAdapter.create_tweet` (success carries the
new tweet id and url; failure carries an error message). -/
structure CreateTweetResult where
  success : Bool
  tweet_id : String := ""
  url : String := ""
  error : Option String := none
deriving DecidableEq

/-- The outcome dictionary returned by `AutoReplier.post_reply`; absent keys
are `none` (the caller reads them with `.get`). -/
structure PostOutcome where
  success : Bool
  dry_run : Option Bool := none
  reply_text : Option String := none
  tweet_id : Option String := none
  url : Option String := none
  error : Option String := none
  reason : Option String := none
deriving DecidableEq

/-- `AutoReplier.post_reply`.  Reply generation (the provider strategies and
their AI calls) is an oracle `gen_reply : Option String` — `None` models
"skip or generation failed".  The platform post call is the oracle
`platform`, consulted only on the real-post path; `Except.error` models the
call raising (caught by the source into a failure outcome). -/
def post_reply (gen_reply : Option String) (dry_run : Bool)
    (platform : Except String CreateTweetResult) : PostOutcome :=
  match gen_reply with
  | none => { success := false, reason := some "AI decided to skip or generation failed" }
  | some txt =>
    if dry_run then
      { success := true, dry_run := some true, reply_text := some txt, tweet_id := none }
    else
      match platform with
      | .error e => { success := false, error := some e, reply_text := some txt }
      | .ok r =>
        if r.success then
          { success := true, dry_run := some false, reply_text := some txt,
            tweet_id := some r.tweet_id, url := some r.url }
        else
          { success := false, error := r.error, reply_text := some txt }

/-! ## Reply processing step (`CampaignManager.process_pending_reply`) -/

/-- The three result shapes `process_pending_reply` returns: an error
dictionary, a reason dictionary, or the Auto Replier outcome passed
through. -/
inductive PPResult where
  | err (msg : String)
  | reason (msg : String)
  | outcome (o : PostOutcome)
deriving DecidableEq

/-- `matched_posts.update_one({_id: pid}, {$set: {reply_status: s}})`. -/
def setReplyStatus (posts : List MatchedPost) (pid : Nat) (s : String) : List MatchedPost :=
  posts.map (fun p => if p.id == pid then { p with reply_status := s } else p)

/-- `CampaignManager.process_pending_reply`: load the campaign, require it to
be active, pick the first pending matched post, apply the duplicate guard,
otherwise post (via the Auto Replier oracle inputs), append exactly one
`CampaignReply`, update the matched post's status, and increment
`total_replies` only on a real non-dry-run success. -/
def process_pending_reply (st : Store) (cid : String) (gen_reply : Option String)
    (platform : Except String CreateTweetResult) (now : Int) : PPResult × Store :=
  if !validObjectId cid then (.err ("Invalid ObjectId: " ++ cid), st)
  else
    match lookupCampaign st cid with
    | none => (.err "Campaign not found", st)
    | some campaign =>
      if campaign.status ≠ "active" then (.err "Campaign not active", st)
      else
        match st.matched_posts.find? (fun p => p.campaign_id == cid && p.reply_status == "pending") with
        | none => (.reason "No pending posts", st)
        | some pending =>
          match st.campaign_replies.find?
              (fun r => r.campaign_id == cid && r.target_tweet_id == pending.tweet_id && r.status == "posted") with
          | some _ =>
            (.reason "Duplicate tweet",
             { st with matched_posts := setReplyStatus st.matched_posts pending.id "duplicate" })
          | none =>
            let result := post_reply gen_reply campaign.dry_run platform
            let doc : CampaignReply :=
              { campaign_id := cid, target_user := pending.username,
                target_tweet_id := pending.tweet_id, target_tweet_text := pending.text,
                reply_text := result.reply_text, reply_tweet_id := result.tweet_id,
                short_url := campaign.short_url,
                status := if result.success then "posted" else "failed",
                error_message := result.error, dry_run := result.dry_run.getD false,
                posted_at := if result.success then some now else none, created_at := now }
            let st1 : Store :=
              { st with campaign_replies := st.campaign_replies ++ [doc],
                        matched_posts := setReplyStatus st.matched_posts pending.id
                          (if result.success then "posted" else "failed") }
            let st2 : Store :=
              if result.success && !(result.dry_run.getD false) then
                updateCampaign st1 cid (fun c => { c with total_replies := c.total_replies + 1 })
              else st1
            (.outcome result, st2)

/-! ## Rate Limiter (`modules/scheduler/rate_limiter.py`) -/

/-- The fixed limits dictionary set in `RateLimiter.__init__`. -/
structure RateLimits where
  replies_per_hour : Nat := 30
  min_delay_between_replies_seconds : Int := 120
deriving DecidableEq

/-- A Mongo query that may fail: `fault = some e` makes every collection
access raise `e` (driver/connection failure), which the limiter's `except`
clause turns into a denial. -/
def dbQuery (fault : Option String) (x : α) : Except String α :=
  match fault with
  | some e => .error e
  | none => .ok x

/-- The daily/hourly counting query of `can_post_reply`:
`campaign_replies.count_documents({campaign_id, posted_at: {$gte: cutoff},
status: "posted", dry_run: False})`.  A document without `posted_at` (it is
`null` for failed replies) does not satisfy the `$gte` filter. -/
def countPostedSince (st : Store) (cid : String) (cutoff : Int) : Nat :=
  (st.campaign_replies.filter (fun r =>
    r.campaign_id == cid && r.status == "posted" && !r.dry_run &&
    (match r.posted_at with
     | some t => decide (cutoff ≤ t)
     | none => false))).length

/-- The most recent posted, non-dry-run reply:
`find_one({... posted_at: {$exists: true}}, sort=[("posted_at", -1)])`. -/
def lastPostedReply (st : Store) (cid : String) : Option CampaignReply :=
  (st.campaign_replies.filter (fun r =>
      r.campaign_id == cid && r.status == "posted" && !r.dry_run && r.posted_at.isSome)).foldl
    (fun best r =>
      match best with
      | none => some r
      | some b => if b.posted_at.getD 0 < r.posted_at.getD 0 then some r else some b)
    none

/-- The body of `RateLimiter.can_post_reply` inside its `try`: the three
gates in source order, short-circuiting on the first violation.  `now` is
`datetime.now()` (in seconds) and `today_start` is local midnight; any raised
exception propagates as `Except.error`. -/
def canPostReplyE (fault : Option String) (st : Store) (lim : RateLimits)
    (now today_start : Int) (cid : String) : Except String (Bool × String) :=
  match objectId cid with
  | .error e => .error e
  | .ok oid =>
    match dbQuery fault (lookupCampaign st oid) with
    | .error e => .error e
    | .ok none => .ok (false, "Campaign not found")
    | .ok (some campaign) =>
      match dbQuery fault (countPostedSince st oid today_start) with
      | .error e => .error e
      | .ok replies_today =>
        let max_per_day := campaign.max_replies_per_day.getD 50
        if max_per_day ≤ replies_today then
          .ok (false, "Daily limit reached (" ++ toString replies_today ++ "/" ++ toString max_per_day ++ ")")
        else
          match dbQuery fault (countPostedSince st oid (now - 3600)) with
          | .error e => .error e
          | .ok replies_last_hour =>
            if lim.replies_per_hour ≤ replies_last_hour then
              .ok (false, "Hourly limit reached (" ++ toString replies_last_hour ++ "/" ++ toString lim.replies_per_hour ++ ")")
            else
              match dbQuery fault (lastPostedReply st oid) with
              | .error e => .error e
              | .ok (some r) =>
                match r.posted_at with
                | some t =>
                  let time_since := now - t
                  if time_since < lim.min_delay_between_replies_seconds then
                    .ok (false, "Too soon since last reply. Wait " ++
                      toString (lim.min_delay_between_replies_seconds - time_since) ++ "s")
                  else .ok (true, "OK")
                | none => .ok (true, "OK")
              | .ok none => .ok (true, "OK")

/-- `RateLimiter.can_post_reply`: the `except Exception` wrapper turns any
raised error into a `(False, "Error: ...")` denial. -/
def can_post_reply (fault : Option String) (st : Store) (lim : RateLimits)
    (now today_start : Int) (cid : String) : Bool × String :=
  match canPostReplyE fault st lim now today_start cid with
  | .ok r => r
  | .error e => (false, "Error: " ++ e)

/-! ## Concrete instances used by the claim theorems and counterexamples -/

/-- A well-formed campaign object id. -/
def exCid : String := "0123456789abcdef01234567"

/-- A second well-formed campaign object id. -/
def exCid2 : String := "89abcdef0123456789abcdef"

/-- Claim C1: a campaign created with `daily_reply_limit = 1`. -/
def c1Campaign : Campaign :=
  create_campaign
    { name := "c1", seed_users := ["@a"], keywords := ["k"], reply_template := "t",
      target_url := "https://t", short_url := "https://s", daily_reply_limit := some 1 } 0

/-- Claim C1: one real (non-dry-run) reply posted at local midnight. -/
def c1Reply : CampaignReply :=
  { campaign_id := exCid, target_user := "bob", target_tweet_id := "t1",
    target_tweet_text := "x", reply_text := some "r", reply_tweet_id := some "900",
    short_url := "https://s", status := "posted", error_message := none,
    dry_run := false, posted_at := some 0, created_at := 0 }

/-- Claim C1: the store holding that campaign and its reply ledger. -/
def c1Store : Store :=
  { campaigns := [(exCid, c1Campaign)], matched_posts := [], campaign_replies := [c1Reply] }

/-- Claim C2: a tweet whose text matches the keyword. -/
def c2Tweet : Tweet := { tweet_id := "11", text := "a keyword here" }

/-- Claim C2: a fetch oracle returning that tweet for user `alice`. -/
def c2Fetch : String → Nat → Nat → List Tweet :=
  fun u _ _ => if u == "alice" then [c2Tweet] else []

/-- Claim C3: a freshly created (draft) campaign. -/
def c3Draft : Campaign :=
  create_campaign
    { name := "d", seed_users := [], keywords := [], reply_template := "",
      target_url := "", short_url := "" } 0

/-- Claim C3: the same campaign with status `completed` (reached externally,
as the spec allows). -/
def c3Completed : Campaign := { c3Draft with status := "completed" }

/-- Claim C3: a store with one draft and one completed campaign. -/
def c3Store : Store :=
  { campaigns := [(exCid, c3Draft), (exCid2, c3Completed)],
    matched_posts := [], campaign_replies := [] }

/-- Claims C4 and C8: an active campaign (dry-run for C8's store). -/
def c4Campaign : Campaign :=
  { create_campaign
      { name := "c4", seed_users := ["@a"], keywords := ["k"], reply_template := "t",
        target_url := "https://t", short_url := "https://s" } 0 with status := "active" }

/-- Claims C4 and C8: a pending matched post targeting tweet `t1`. -/
def c4Pending : MatchedPost :=
  { id := 1, campaign_id := exCid, tweet_id := "t1", username := "bob",
    text := "k text", reply_status := "pending" }

/-- Claim C4: a posted reply already recorded against the same target tweet. -/
def c4Store : Store :=
  { campaigns := [(exCid, c4Campaign)], matched_posts := [c4Pending],
    campaign_replies := [c1Reply] }

/-- Claim C8: the same situation with a dry-run campaign and no prior reply. -/
def c8Store : Store :=
  { campaigns := [(exCid, { c4Campaign with dry_run := true })],
    matched_posts := [c4Pending], campaign_replies := [] }

/-- Claim C5: a fetch oracle for the seed `bob@` (note the trailing at-sign). -/
def c5Fetch : String → Nat → Nat → List Tweet :=
  fun u _ _ => if u == "bob@" then [{ tweet_id := "t1", text := "" }] else []

/-- Claim C5: the user `bob@` liked the seed's own post. -/
def c5Itx : String → Interactions :=
  fun tid => if tid == "t1" then { likers := ["bob@"] } else {}

/-- Claim C7: the seed `@a` has one post `p1`. -/
def c7Fetch : String → Nat → Nat → List Tweet :=
  fun u _ _ => if u == "@a" then [{ tweet_id := "p1", text := "" }] else []

/-- Claim C7: post `p1` has liker `bob` and retweeter `carol`. -/
def c7Itx : String → Interactions :=
  fun tid => if tid == "p1" then { likers := ["bob"], retweeters := ["carol"] } else {}

/-- Claim C6: a tweet matching the keyword `ai`. -/
def c6Tweet : Tweet := { tweet_id := "1", text := "AI rocks" }

/-! ## Helper lemmas -/

/-- Membership after the seed-removal loop: a surviving entry was already
present and is distinct from every stripped seed name. -/
theorem mem_removeSeedScores (seeds : List String) (sc : List (String × Nat))
    (x : String × Nat) (hx : x ∈ removeSeedScores seeds sc) :
    x ∈ sc ∧ ∀ seed ∈ seeds, x.fst ≠ pyStripChar '@' seed := by
  induction seeds generalizing sc with
  | nil =>
    refine ⟨hx, ?_⟩
    intro seed hs
    exact absurd hs (List.not_mem_nil seed)
  | cons s ss ih =>
    have hx' : x ∈ removeSeedScores ss (sc.filter (fun p => p.fst != pyStripChar '@' s)) := hx
    obtain ⟨hmem, hall⟩ := ih _ hx'
    obtain ⟨hsc, hne⟩ := List.mem_filter.mp hmem
    refine ⟨hsc, ?_⟩
    intro seed hs
    rcases List.mem_cons.mp hs with rfl | hseed
    · exact bne_iff_ne.mp hne
    · exact hall seed hseed

/-- Membership through stable descending insertion. -/
theorem mem_insertDesc (x y : String × Nat) (l : List (String × Nat)) :
    y ∈ insertDesc x l ↔ y = x ∨ y ∈ l := by
  induction l with
  | nil => simp [insertDesc]
  | cons z zs ih =>
    simp only [insertDesc]
    split
    · simp only [List.mem_cons, ih]
      tauto
    · simp only [List.mem_cons]

/-- Stable descending insertion preserves descending order. -/
theorem sorted_insertDesc (x : String × Nat) (l : List (String × Nat))
    (h : l.Pairwise (fun a b => b.snd ≤ a.snd)) :
    (insertDesc x l).Pairwise (fun a b => b.snd ≤ a.snd) := by
  induction l with
  | nil => simp [insertDesc]
  | cons z zs ih =>
    obtain ⟨hz, hzs⟩ := List.pairwise_cons.mp h
    simp only [insertDesc]
    split
    · rename_i hlt
      refine List.pairwise_cons.mpr ⟨?_, ih hzs⟩
      intro y hy
      rcases (mem_insertDesc x y zs).mp hy with rfl | hmem
      · exact Nat.le_of_lt hlt
      · exact hz y hmem
    · rename_i hge
      have hle : z.snd ≤ x.snd := Nat.le_of_not_lt hge
      refine List.pairwise_cons.mpr ⟨?_, h⟩
      intro y hy
      rcases List.mem_cons.mp hy with rfl | hmem
      · exact hle
      · exact Nat.le_trans (hz y hmem) hle

/-- The stable sort produces a descending list. -/
theorem sorted_sortDesc (l : List (String × Nat)) :
    (sortDesc l).Pairwise (fun a b => b.snd ≤ a.snd) := by
  induction l with
  | nil => simp [sortDesc]
  | cons x xs ih => exact sorted_insertDesc x (sortDesc xs) ih

/-- Membership through the stable sort. -/
theorem mem_sortDesc (y : String × Nat) (l : List (String × Nat)) :
    y ∈ sortDesc l ↔ y ∈ l := by
  induction l with
  | nil => simp [sortDesc]
  | cons x xs ih =>
    simp only [sortDesc, mem_insertDesc, ih, List.mem_cons]

/-- Filtering one score class through stable insertion: an inserted element
lands at the front of its own score class (everything it skipped over has a
strictly greater score). -/
theorem filter_insertDesc (x : String × Nat) (l : List (String × Nat)) (s : Nat) :
    (insertDesc x l).filter (fun p => p.snd == s) =
      if x.snd == s then x :: l.filter (fun p => p.snd == s)
      else l.filter (fun p => p.snd == s) := by
  induction l with
  | nil =>
    by_cases hx : (x.snd == s) = true <;> simp [insertDesc, List.filter_cons, hx]
  | cons z zs ih =>
    simp only [insertDesc]
    by_cases hlt : x.snd < z.snd
    · rw [if_pos hlt]
      by_cases hz : (z.snd == s) = true
      · by_cases hx : (x.snd == s) = true
        · exfalso
          have hzs : z.snd = s := by simpa using hz
          have hxs : x.snd = s := by simpa using hx
          omega
        · simp [List.filter_cons, hz, hx, ih]
      · by_cases hx : (x.snd == s) = true
        · simp [List.filter_cons, hz, hx, ih]
        · simp [List.filter_cons, hz, hx, ih]
    · rw [if_neg hlt]
      by_cases hx : (x.snd == s) = true
      · simp [List.filter_cons, hx]
      · simp [List.filter_cons, hx]

/-- Stability of the sort, phrased per score class: each score class of the
sorted list equals the same score class of the input, in input order. -/
theorem filter_sortDesc (l : List (String × Nat)) (s : Nat) :
    (sortDesc l).filter (fun p => p.snd == s) = l.filter (fun p => p.snd == s) := by
  induction l with
  | nil => simp [sortDesc]
  | cons x xs ih =>
    simp only [sortDesc, filter_insertDesc, List.filter_cons]
    by_cases hx : (x.snd == s) = true
    · simp [hx, ih]
    · simp [hx, ih]

/-- Filtering commutes with mapping. -/
theorem filter_map_comm {α β : Type} (f : α → β) (p : β → Bool) (l : List α) :
    (l.map f).filter p = (l.filter (fun a => p (f a))).map f := by
  induction l with
  | nil => rfl
  | cons a l ih =>
    simp only [List.map_cons, List.filter_cons]
    by_cases h : p (f a) = true
    · simp [h, ih]
    · simp [h, ih]

/-- Characterization of the per-user keyword loop for a positive cap: it
keeps exactly the first `max - cnt` keyword-matching tweets, in fetch
order. -/
theorem collectUserMatches_eq (username : String) (keywords : List String)
    (maxp : Nat) :
    ∀ (ts : List Tweet) (cnt : Nat), cnt < maxp →
      collectUserMatches username keywords maxp cnt ts =
        ((ts.filter (fun t => matches_keywords t.text keywords)).take (maxp - cnt)).map
          (mkMatchedRec username keywords) := by
  intro ts
  induction ts with
  | nil =>
    intro cnt h
    simp [collectUserMatches]
  | cons t ts ih =>
    intro cnt h
    simp only [collectUserMatches, List.filter_cons]
    by_cases hm : matches_keywords t.text keywords = true
    · by_cases hc : maxp ≤ cnt + 1
      · have h1 : maxp - cnt = 1 := by omega
        simp [hm, hc, h1]
      · have hlt : cnt + 1 < maxp := by omega
        obtain ⟨k, hk⟩ : ∃ k, maxp - cnt = k + 1 := ⟨maxp - cnt - 1, by omega⟩
        have hk2 : maxp - (cnt + 1) = k := by omega
        simp [hm, hc, ih (cnt + 1) hlt, hk, hk2]
    · simp [hm, ih cnt h]

/-- `find?` by key commutes with an update map that never changes keys. -/
theorem find?_map_updateCampaign (l : List (String × Campaign)) (cid : String)
    (f : Campaign → Campaign) :
    (l.map (fun p => if p.fst == cid then (p.fst, f p.snd) else p)).find?
        (fun p => p.fst == cid) =
      (l.find? (fun p => p.fst == cid)).map (fun p => (p.fst, f p.snd)) := by
  induction l with
  | nil => rfl
  | cons p ps ih =>
    by_cases h : (p.fst == cid) = true
    · simp only [List.map_cons, if_pos h, List.find?, h]
      simp [h]
    · have h' : (p.fst == cid) = false := by simpa using h
      simp only [List.map_cons, if_neg h, List.find?, h', ih]
      simp [h']

/-- Updating a present campaign is visible through `lookupCampaign`. -/
theorem lookupCampaign_updateCampaign (st : Store) (cid : String)
    (f : Campaign → Campaign) (c : Campaign) (h : lookupCampaign st cid = some c) :
    lookupCampaign (updateCampaign st cid f) cid = some (f c) := by
  unfold lookupCampaign updateCampaign
  simp only [find?_map_updateCampaign]
  unfold lookupCampaign at h
  obtain ⟨p, hp, hpc⟩ := Option.map_eq_some'.mp h
  subst hpc
  simp [hp]

/-! ## Claim theorems -/

/-- Claim C1 (code bug): the daily cap configured at campaign creation is
ignored by the rate limiter.  `create_campaign` stores the cap under
`daily_reply_limit`, but `can_post_reply` reads the never-written key
`max_replies_per_day` with default 50: with `daily_reply_limit = 1` and one
posted non-dry-run reply since local midnight (so the configured limit is
reached), the gate still answers `(true, "OK")` two hours later instead of a
daily-limit denial. -/
theorem c1_daily_limit_config_ignored :
    c1Campaign.daily_reply_limit = 1 ∧
    countPostedSince c1Store exCid 0 = 1 ∧
    c1Campaign.daily_reply_limit ≤ countPostedSince c1Store exCid 0 ∧
    can_post_reply none c1Store {} 7200 0 exCid = (true, "OK") := by
  decide

/-- Claim C7: the scenario from the spec — seed `["@a"]`, one seed post with
liker `bob` and retweeter `carol`, `top_n = 1` — yields exactly
`[{username := "carol", interaction_score := 2}]`: a like is worth 1, a
retweet 2, carol outranks bob, and truncation drops bob. -/
theorem c7_scoring_scenario :
    find_top_interacted_users c7Fetch c7Itx ["@a"] 1 7 0 =
      [{ username := "carol", interaction_score := 2, last_interaction := 0 }] := by
  decide

/-- Claim C2 counterexample: with a non-empty keyword-matched candidate list
and a successful AI call whose text contains no `tweet_id=...;suitable=...`
line, `find_matching_posts` returns the empty list — not the pre-gate
candidate list as the claim states. -/
theorem c2_counterexample :
    find_matching_posts c2Fetch ["alice"] ["keyword"] 7 5 true (some {})
        (.ok { success := true, analysis := "I cannot analyze these tweets." }) = [] ∧
    keyword_candidates c2Fetch ["alice"] ["keyword"] 7 5 ≠ [] := by
  decide

/-- Claim C3 counterexample: `stop_campaign` moves a `draft` campaign
directly to `paused`, and `start_campaign` (with an authenticated session)
moves a `completed` campaign to `active` — transitions the claim says can
never occur. -/
theorem c3_counterexample :
    (lookupCampaign c3Store exCid).map (fun c => c.status) = some "draft" ∧
    (lookupCampaign ((stop_campaign c3Store exCid 5).2) exCid).map (fun c => c.status) =
      some "paused" ∧
    (lookupCampaign c3Store exCid2).map (fun c => c.status) = some "completed" ∧
    (lookupCampaign ((start_campaign c3Store true exCid2 5).2) exCid2).map (fun c => c.status) =
      some "active" := by
  decide

/-- Claim C5 counterexample: with seed `"bob@"` (an at-sign at the end, not
the front), the code strips `'@'` from both ends and removes the key `"bob"`,
so the scored user literally named `"bob@"` — which equals the seed after the
claim's leading-at normalization — survives into the output. -/
theorem c5_counterexample :
    ∃ e ∈ find_top_interacted_users c5Fetch c5Itx ["bob@"] 5 7 0,
      ∃ seed ∈ ["bob@"], e.username = stripLeadingAt seed := by
  decide

/-- Claim C6 counterexample: with `max_posts_per_user = 0` the loop still
keeps one matching post, because the source appends before checking the cap;
so "at most `maxPostsPerUser` posts are kept" fails at 0. -/
theorem c6_counterexample :
    (collectUserMatches "u" ["ai"] 0 0 [c6Tweet]).length = 1 := by
  decide

/-- Claim C3 (amended): for a stored campaign, `stop_campaign` sets the
status to `paused` regardless of the current status, and `start_campaign`
sets it to `active` regardless of the current status when the session is
authenticated, leaving the store untouched when it is not: these — and not
the spec's draft→active/active→paused/paused→active triangle alone — are
exactly the transitions the two operations perform. -/
theorem c3_transitions (st : Store) (cid : String) (now : Int) (c : Campaign)
    (auth : Bool) (hv : validObjectId cid = true)
    (hc : lookupCampaign st cid = some c) :
    lookupCampaign ((stop_campaign st cid now).2) cid =
      some { c with status := "paused", updated_at := now } ∧
    (auth = true →
      lookupCampaign ((start_campaign st auth cid now).2) cid =
        some { c with status := "active", updated_at := now }) ∧
    (auth = false → (start_campaign st auth cid now).2 = st) := by
  refine ⟨?_, ?_, ?_⟩
  · have h2 : (stop_campaign st cid now).2 =
        updateCampaign st cid (fun c => { c with status := "paused", updated_at := now }) := by
      unfold stop_campaign objectId
      simp [hv]
    rw [h2]
    exact lookupCampaign_updateCampaign st cid _ c hc
  · intro ha
    subst ha
    have h2 : (start_campaign st true cid now).2 =
        updateCampaign st cid (fun c => { c with status := "active", updated_at := now }) := by
      unfold start_campaign objectId
      simp [hv]
    rw [h2]
    exact lookupCampaign_updateCampaign st cid _ c hc
  · intro ha
    subst ha
    unfold start_campaign
    simp

/-- Claim C4: when the selected pending matched post already has a posted
`CampaignReply` for the same target tweet in the same campaign,
`process_pending_reply` answers with the `Duplicate tweet` reason, marks that
matched post `duplicate`, and writes no new `CampaignReply` (and touches no
campaign counters) — so a second call against an already-replied target
creates no second ledger row. -/
theorem c4_duplicate_guard (st : Store) (cid : String) (gen_reply : Option String)
    (platform : Except String CreateTweetResult) (now : Int)
    (campaign : Campaign) (pending : MatchedPost)
    (hv : validObjectId cid = true)
    (hc : lookupCampaign st cid = some campaign)
    (hs : campaign.status = "active")
    (hp : st.matched_posts.find?
        (fun p => p.campaign_id == cid && p.reply_status == "pending") = some pending)
    (hd : (st.campaign_replies.find?
        (fun r => r.campaign_id == cid && r.target_tweet_id == pending.tweet_id &&
          r.status == "posted")).isSome = true) :
    (process_pending_reply st cid gen_reply platform now).1 = .reason "Duplicate tweet" ∧
    (process_pending_reply st cid gen_reply platform now).2.campaign_replies =
      st.campaign_replies ∧
    (process_pending_reply st cid gen_reply platform now).2.campaigns = st.campaigns ∧
    (process_pending_reply st cid gen_reply platform now).2.matched_posts =
      setReplyStatus st.matched_posts pending.id "duplicate" ∧
    ∀ q ∈ (process_pending_reply st cid gen_reply platform now).2.matched_posts,
      q.id = pending.id → q.reply_status = "duplicate" := by
  obtain ⟨r, hr⟩ := Option.isSome_iff_exists.mp hd
  have hred : process_pending_reply st cid gen_reply platform now =
      (.reason "Duplicate tweet",
       { st with matched_posts := setReplyStatus st.matched_posts pending.id "duplicate" }) := by
    unfold process_pending_reply
    simp [hv, hc, hs, hp, hr]
  rw [hred]
  refine ⟨rfl, rfl, rfl, rfl, ?_⟩
  intro q hq hid
  simp only [setReplyStatus, List.mem_map] at hq
  obtain ⟨p, hpmem, hpq⟩ := hq
  by_cases hpe : (p.id == pending.id) = true
  · rw [if_pos hpe] at hpq
    subst hpq
    rfl
  · rw [if_neg hpe] at hpq
    subst hpq
    exact absurd hid (by simpa using hpe)

/-- Claim C8: for a dry-run campaign and a non-null generated reply,
`post_reply` yields a success outcome with `dry_run = true` and a null tweet
id, ignoring the platform oracle entirely (no post call is attempted), and
the surrounding `process_pending_reply` leaves every campaign document — in
particular the `total_replies` counter — unchanged. -/
theorem c8_dry_run_behavior (st : Store) (cid : String) (txt : String)
    (platform platform2 : Except String CreateTweetResult) (now : Int)
    (campaign : Campaign) (pending : MatchedPost)
    (hv : validObjectId cid = true)
    (hc : lookupCampaign st cid = some campaign)
    (hs : campaign.status = "active")
    (hdry : campaign.dry_run = true)
    (hp : st.matched_posts.find?
        (fun p => p.campaign_id == cid && p.reply_status == "pending") = some pending)
    (hd : st.campaign_replies.find?
        (fun r => r.campaign_id == cid && r.target_tweet_id == pending.tweet_id &&
          r.status == "posted") = none) :
    post_reply (some txt) campaign.dry_run platform =
      { success := true, dry_run := some true, reply_text := some txt, tweet_id := none } ∧
    post_reply (some txt) campaign.dry_run platform =
      post_reply (some txt) campaign.dry_run platform2 ∧
    (process_pending_reply st cid (some txt) platform now).1 =
      .outcome { success := true, dry_run := some true, reply_text := some txt, tweet_id := none } ∧
    (process_pending_reply st cid (some txt) platform now).2.campaigns = st.campaigns := by
  have hpr : ∀ pf : Except String CreateTweetResult,
      post_reply (some txt) campaign.dry_run pf =
        { success := true, dry_run := some true, reply_text := some txt, tweet_id := none } := by
    intro pf
    unfold post_reply
    simp [hdry]
  refine ⟨hpr platform, by rw [hpr platform, hpr platform2], ?_, ?_⟩
  · unfold process_pending_reply
    simp [hv, hc, hs, hp, hd, hpr platform]
  · unfold process_pending_reply
    simp [hv, hc, hs, hp, hd, hpr platform]

/-- Claim C9: when the AI-analysis call raises, `find_matching_posts` with
the Grok gate enabled returns the pre-gate keyword-matched candidate list
completely unchanged. -/
theorem c9_fail_open_on_throw (fetch : String → Nat → Nat → List Tweet)
    (usernames keywords : List String) (lookback_days max_posts_per_user : Nat)
    (ctx : Option GrokContext) (e : String)
    (h : keyword_candidates fetch usernames keywords lookback_days max_posts_per_user ≠ []) :
    find_matching_posts fetch usernames keywords lookback_days max_posts_per_user true ctx
        (.error e) =
      keyword_candidates fetch usernames keywords lookback_days max_posts_per_user := by
  have hne : (keyword_candidates fetch usernames keywords lookback_days
      max_posts_per_user).isEmpty = false := by
    cases hke : keyword_candidates fetch usernames keywords lookback_days max_posts_per_user with
    | nil => exact absurd hke h
    | cons a l => rfl
  unfold find_matching_posts
  cases ctx with
  | none => simp
  | some c => simp [filter_with_grok, hne]

/-- Claim C2 (amended): when the AI-analysis call succeeds but its text
contains no line matching the `tweet_id=...;suitable=...` pattern,
`find_matching_posts` returns the empty list — every candidate is dropped;
the pre-gate list survives only when the call reports failure or raises. -/
theorem c2_unparseable_drops_all (fetch : String → Nat → Nat → List Tweet)
    (usernames keywords : List String) (lookback_days max_posts_per_user : Nat)
    (ctx : GrokContext) (analysis : String)
    (hscan : grokScan analysis = [])
    (h : keyword_candidates fetch usernames keywords lookback_days max_posts_per_user ≠ []) :
    find_matching_posts fetch usernames keywords lookback_days max_posts_per_user true
        (some ctx) (.ok { success := true, analysis := analysis }) = [] := by
  have hne : (keyword_candidates fetch usernames keywords lookback_days
      max_posts_per_user).isEmpty = false := by
    cases hke : keyword_candidates fetch usernames keywords lookback_days max_posts_per_user with
    | nil => exact absurd hke h
    | cons a l => rfl
  unfold find_matching_posts
  simp [filter_with_grok, hne, parse_grok_analysis, hscan]

/-- Claim C10: the rate-limit gate is fail-closed — a malformed campaign id
or a failing ledger query can only produce a denial whose reason begins with
`Error:`, never an allowance. -/
theorem c10_fail_closed (fault : Option String) (st : Store) (lim : RateLimits)
    (now today_start : Int) (cid : String)
    (h : validObjectId cid = false ∨ fault.isSome = true) :
    (can_post_reply fault st lim now today_start cid).1 = false ∧
    ∃ msg, (can_post_reply fault st lim now today_start cid).2 = "Error: " ++ msg := by
  rcases h with hv | hf
  · have he : canPostReplyE fault st lim now today_start cid =
        .error ("Invalid ObjectId: " ++ cid) := by
      unfold canPostReplyE objectId
      simp [hv]
    unfold can_post_reply
    rw [he]
    exact ⟨rfl, ⟨_, rfl⟩⟩
  · obtain ⟨e, hfe⟩ := Option.isSome_iff_exists.mp hf
    subst hfe
    by_cases hv : validObjectId cid = true
    · have he : canPostReplyE (some e) st lim now today_start cid = .error e := by
        unfold canPostReplyE objectId dbQuery
        simp [hv]
      unfold can_post_reply
      rw [he]
      exact ⟨rfl, ⟨_, rfl⟩⟩
    · have hv' : validObjectId cid = false := by simpa using hv
      have he : canPostReplyE (some e) st lim now today_start cid =
          .error ("Invalid ObjectId: " ++ cid) := by
        unfold canPostReplyE objectId
        simp [hv']
      unfold can_post_reply
      rw [he]
      exact ⟨rfl, ⟨_, rfl⟩⟩

/-- Claim C5 (amended): the mapper output never contains a username equal to
any seed stripped of `'@'` at both ends (Python `strip('@')`, not only a
leading one), is sorted by score descending with ties kept in encounter
order (each score class of the output is a subsequence of the encounter-
ordered score list), and has length at most `top_n`. -/
theorem c5_output_shape (fetch : String → Nat → Nat → List Tweet)
    (itx : String → Interactions) (seeds : List String) (top_n lookback_days : Nat)
    (now : Int) :
    (∀ e ∈ find_top_interacted_users fetch itx seeds top_n lookback_days now,
      ∀ seed ∈ seeds, e.username ≠ pyStripChar '@' seed) ∧
    (find_top_interacted_users fetch itx seeds top_n lookback_days now).Pairwise
      (fun a b => b.interaction_score ≤ a.interaction_score) ∧
    (find_top_interacted_users fetch itx seeds top_n lookback_days now).length ≤ top_n ∧
    ∀ s : Nat,
      ((find_top_interacted_users fetch itx seeds top_n lookback_days now).filter
          (fun e => e.interaction_score == s)).Sublist
        (((removeSeedScores seeds (interactionScores fetch itx lookback_days seeds)).map
            (fmtEntry now)).filter (fun e => e.interaction_score == s)) := by
  have hdef : find_top_interacted_users fetch itx seeds top_n lookback_days now =
      ((sortDesc (removeSeedScores seeds
        (interactionScores fetch itx lookback_days seeds))).take top_n).map (fmtEntry now) := rfl
  refine ⟨?_, ?_, ?_, ?_⟩
  · intro e he seed hseed
    rw [hdef] at he
    obtain ⟨p, hp, rfl⟩ := List.mem_map.mp he
    have hp2 : p ∈ sortDesc (removeSeedScores seeds
        (interactionScores fetch itx lookback_days seeds)) :=
      (List.take_sublist _ _).subset hp
    have hp3 : p ∈ removeSeedScores seeds (interactionScores fetch itx lookback_days seeds) :=
      (mem_sortDesc p _).mp hp2
    exact (mem_removeSeedScores seeds _ p hp3).2 seed hseed
  · rw [hdef]
    rw [List.pairwise_map]
    exact (sorted_sortDesc _).sublist (List.take_sublist _ _)
  · rw [hdef, List.length_map, List.length_take]
    exact Nat.min_le_left _ _
  · intro s
    rw [hdef]
    rw [filter_map_comm, filter_map_comm]
    apply List.Sublist.map
    have h1 : (((sortDesc (removeSeedScores seeds
          (interactionScores fetch itx lookback_days seeds))).take top_n).filter
            (fun p => (fmtEntry now p).interaction_score == s)).Sublist
          ((sortDesc (removeSeedScores seeds
            (interactionScores fetch itx lookback_days seeds))).filter
              (fun p => (fmtEntry now p).interaction_score == s)) :=
      List.Sublist.filter _ (List.take_sublist _ _)
    have h2 : ((sortDesc (removeSeedScores seeds
          (interactionScores fetch itx lookback_days seeds))).filter
            (fun p => (fmtEntry now p).interaction_score == s)) =
        ((removeSeedScores seeds (interactionScores fetch itx lookback_days seeds)).filter
            (fun p => (fmtEntry now p).interaction_score == s)) :=
      filter_sortDesc _ s
    exact h2 ▸ h1

/-- Claim C6 (amended): for a positive per-user cap, the per-user loop keeps
exactly the first `max_posts_per_user` tweets whose text contains a keyword
case-insensitively, in fetch order; each kept record's `matched_keywords` is
exactly the list of keywords occurring case-insensitively in its text; and at
most `max_posts_per_user` records are kept (at cap 0 the source still keeps
one matching post, which is what forces the positivity hypothesis). -/
theorem c6_keyword_selection (username : String) (keywords : List String)
    (maxp : Nat) (tweets : List Tweet) (h : 1 ≤ maxp) :
    collectUserMatches username keywords maxp 0 tweets =
      ((tweets.filter (fun t => matches_keywords t.text keywords)).take maxp).map
        (mkMatchedRec username keywords) ∧
    (∀ r ∈ collectUserMatches username keywords maxp 0 tweets,
      matches_keywords r.text keywords = true ∧
      r.matched_keywords =
        keywords.filter (fun kw => strContains (pyLower r.text) (pyLower kw))) ∧
    (collectUserMatches username keywords maxp 0 tweets).length ≤ maxp := by
  have heq := collectUserMatches_eq username keywords maxp tweets 0 (by omega)
  rw [Nat.sub_zero] at heq
  refine ⟨heq, ?_, ?_⟩
  · intro r hr
    rw [heq] at hr
    obtain ⟨t, ht, rfl⟩ := List.mem_map.mp hr
    have ht2 : t ∈ tweets.filter (fun t => matches_keywords t.text keywords) :=
      (List.take_sublist _ _).subset ht
    exact ⟨(List.mem_filter.mp ht2).2, rfl⟩
  · rw [heq, List.length_map, List.length_take]
    exact Nat.min_le_left _ _

/-- Witness for C2: at a concrete store and the unparseable analysis text
`"nope"` the amended theorem applies and the gate returns the empty list. -/
theorem c2_unparseable_witness :
    find_matching_posts c2Fetch ["alice"] ["keyword"] 7 5 true (some {})
        (.ok { success := true, analysis := "nope" }) = [] :=
  c2_unparseable_drops_all c2Fetch ["alice"] ["keyword"] 7 5 {} "nope"
    (by decide) (by decide)

/-- Witness for C3: stopping the concrete draft campaign lands on `paused`
with the update timestamp. -/
theorem c3_transitions_witness :
    lookupCampaign ((stop_campaign c3Store exCid 5).2) exCid =
      some { c3Draft with status := "paused", updated_at := 5 } :=
  (c3_transitions c3Store exCid 5 c3Draft true (by decide) (by decide)).1

/-- Witness for C4: at the concrete duplicate store the step reports
`Duplicate tweet` and the reply ledger is untouched. -/
theorem c4_duplicate_witness :
    (process_pending_reply c4Store exCid none (.error "x") 99).1 = .reason "Duplicate tweet" ∧
    (process_pending_reply c4Store exCid none (.error "x") 99).2.campaign_replies =
      c4Store.campaign_replies :=
  ⟨(c4_duplicate_guard c4Store exCid none (.error "x") 99 c4Campaign c4Pending
      (by decide) (by decide) (by decide) (by decide) (by decide)).1,
   (c4_duplicate_guard c4Store exCid none (.error "x") 99 c4Campaign c4Pending
      (by decide) (by decide) (by decide) (by decide) (by decide)).2.1⟩

/-- Witness for C8: at the concrete dry-run store the outcome is a dry-run
success with a null tweet id and the campaign documents are unchanged. -/
theorem c8_dry_run_witness :
    (process_pending_reply c8Store exCid (some "hi") (.error "x") 7).1 =
      .outcome { success := true, dry_run := some true, reply_text := some "hi",
                 tweet_id := none } ∧
    (process_pending_reply c8Store exCid (some "hi") (.error "x") 7).2.campaigns =
      c8Store.campaigns :=
  ⟨(c8_dry_run_behavior c8Store exCid "hi" (.error "x") (.ok { success := true }) 7
      { c4Campaign with dry_run := true } c4Pending
      (by decide) (by decide) (by decide) (by decide) (by decide) (by decide)).2.2.1,
   (c8_dry_run_behavior c8Store exCid "hi" (.error "x") (.ok { success := true }) 7
      { c4Campaign with dry_run := true } c4Pending
      (by decide) (by decide) (by decide) (by decide) (by decide) (by decide)).2.2.2⟩

/-- Witness for C9: at a concrete non-empty candidate list a raising AI call
leaves the pre-gate list unchanged. -/
theorem c9_fail_open_witness :
    find_matching_posts c2Fetch ["alice"] ["keyword"] 7 5 true (some {}) (.error "boom") =
      keyword_candidates c2Fetch ["alice"] ["keyword"] 7 5 :=
  c9_fail_open_on_throw c2Fetch ["alice"] ["keyword"] 7 5 (some {}) "boom" (by decide)

/-- Witness for C10: a malformed campaign id yields a fail-closed denial. -/
theorem c10_fail_closed_witness :
    (can_post_reply none c1Store {} 0 0 "zz").1 = false ∧
    ∃ msg, (can_post_reply none c1Store {} 0 0 "zz").2 = "Error: " ++ msg :=
  c10_fail_closed none c1Store {} 0 0 "zz" (Or.inl (by decide))

/-- Witness for C5: the amended output-shape theorem applied at the concrete
mapper inputs bounds the result length by `top_n`. -/
theorem c5_output_shape_witness :
    (find_top_interacted_users c5Fetch c5Itx ["bob@"] 5 7 0).length ≤ 5 :=
  (c5_output_shape c5Fetch c5Itx ["bob@"] 5 7 0).2.2.1

/-- Witness for C6: the amended keyword-selection theorem applied at a
positive cap bounds the kept records by the cap. -/
theorem c6_keyword_selection_witness :
    (collectUserMatches "u" ["ai"] 5 0 [c6Tweet]).length ≤ 5 :=
  (c6_keyword_selection "u" ["ai"] 5 [c6Tweet] (by decide)).2.2
